import Mathlib

/-!
# Verification of `pyccl/nl_pt/power.py` (perturbation-theory power spectra)

This file gives a shallow embedding of the CCL perturbation-theory power
spectrum module (`src/pyccl/nl_pt/power.py`) and proves/refutes the frozen
claims about it.

Modelling conventions:
* numpy floats are modelled as `ℚ` (the module only performs field
  arithmetic on its inputs; the float literals `0.5`, `0.25`, `2.`,
  `4./3.`, `8./9.` become the exact rationals `1/2`, `1/4`, `2`, `4/3`,
  `8/9`);
* 1-D numpy arrays are `List ℚ` (`Vec`) and 2-D arrays are
  `List (List ℚ)` (`Grid`), stored row-major with the wavenumber index
  `k` outermost and the redshift index `z` innermost, exactly the
  `(N_k, N_z)` layout the source produces;
* external collaborators (the FAST-PT correlator engine, the background
  cosmology evaluator, the tracers' redshift-indexed bias functions, and
  numpy's elementwise `log`) are opaque function parameters — the module
  under verification only ever calls them, so every theorem quantifies
  over them;
* a Python method that mutates `self` and may raise is embedded as a
  function returning the post-call object together with
  `Option String` (the raised error, if any); the orchestrator, which
  only raises before or instead of producing a value, returns the
  post-call calculator, the emitted warnings and `Except String Pk2D`.
-/

namespace CCL

/-- 1-D numpy array of floats. -/
abbrev Vec := List ℚ

/-- 2-D numpy array of floats, `Grid[k][z]` with wavenumber index first. -/
abbrev Grid := List (List ℚ)

/-! ## numpy array primitives used by the source -/

/-- Elementwise product of two 1-D arrays (`a * b` in numpy). -/
def vMul (a b : Vec) : Vec := List.zipWith (· * ·) a b

/-- Elementwise sum of two 1-D arrays (`a + b` in numpy). -/
def vAdd (a b : Vec) : Vec := List.zipWith (· + ·) a b

/-- Scalar times a 1-D array (`c * a` in numpy). -/
def vSmul (c : ℚ) (a : Vec) : Vec := a.map (fun x => c * x)

/-- Outer broadcast `g[None, :] * v[:, None]`: the `(N_k, N_z)` grid whose
`(k, z)` entry is `g[z] * v[k]` (`g` is redshift-indexed, `v` is
wavenumber-indexed). -/
def bcastKZ (g : Vec) (v : Vec) : Grid :=
  v.map (fun x => g.map (fun y => y * x))

/-- Row broadcast `w[None, :] * P`: multiply every row of the
`(N_k, N_z)` grid `P` elementwise by the redshift-indexed vector `w`. -/
def rowMul (w : Vec) (P : Grid) : Grid :=
  P.map (fun r => List.zipWith (· * ·) w r)

/-- Elementwise sum of two grids (`P + Q` in numpy). -/
def gAdd (P Q : Grid) : Grid := List.zipWith vAdd P Q

/-- A numpy value that is either a scalar or a `(1, N_z)` row, as produced
for the low-k subtraction term `s4` in `get_pgg` (`s4 = 0.` or
`s4 = (g4 * sig4)[None, :]`). -/
inductive NScal where
  | scalar (x : ℚ)
  | row (v : Vec)
deriving DecidableEq

/-- Scalar times an `NScal` (`c * s4` in numpy). -/
def NScal.smul (c : ℚ) : NScal → NScal
  | .scalar x => .scalar (c * x)
  | .row v => .row (v.map (fun x => c * x))

/-- Grid minus a broadcast value (`P - s` in numpy): a scalar is
subtracted from every entry, a row is subtracted from every row. -/
def gsubN (P : Grid) : NScal → Grid
  | .scalar x => P.map (fun r => r.map (fun p => p - x))
  | .row v => P.map (fun r => List.zipWith (· - ·) r v)

/-- numpy 2-D transpose `P.T` for a row-major rectangular grid: the row
length is read off the first row (`headD []`), as numpy does for a
rectangular `ndarray`. -/
def npT (P : Grid) : Grid :=
  (List.range (P.headD []).length).map (fun z => P.map (fun r => r.getD z 0))

/-- `(N_k, N_z)` grid built from an entry function; used to state what a
combination formula returns. -/
def GridOfFn (nk nz : ℕ) (f : ℕ → ℕ → ℚ) : Grid :=
  (List.range nk).map (fun k => (List.range nz).map (fun z => f k z))

/-- Entry `(k, z)` of a grid (out-of-range reads give `0`). -/
def gcell (P : Grid) (k z : ℕ) : ℚ := (P.getD k []).getD z 0

/-! ## Data model of the calculator -/

/-- The tuple returned by FAST-PT's `one_loop_dd_bias`, cached as
`PTCalculator.dd_bias`.  The source reads the tuple positionally:
`d0`/`d1` are indices 0–1 (the 1-loop spectrum and the intermediate
term, computed but never consumed by this module), `d2`–`d6` are the
wavenumber-indexed arrays at indices 2–6 (`Pd1d2`, `Pd2d2`, `Pd1s2`,
`Pd2s2`, `Ps2s2`), and `sig4` is index 7.  Index 7 must be a scalar for
the source to be shape-consistent: `get_pgg` evaluates
`g4 * self.dd_bias[7]` with `g4` redshift-indexed (an arbitrary length
chosen per call, after the cache was filled from the k-grid alone), so a
wavenumber-indexed index 7 would not broadcast. -/
structure DDBias where
  d0 : Vec
  d1 : Vec
  d2 : Vec
  d3 : Vec
  d4 : Vec
  d5 : Vec
  d6 : Vec
  sig4 : ℚ
deriving DecidableEq

/-- The tuple returned by FAST-PT's `IA_ta`, cached as `ia_ta`. -/
structure IATA where
  a00e : Vec
  c00e : Vec
  a0e0e : Vec
  a0b0b : Vec
deriving DecidableEq

/-- The tuple returned by FAST-PT's `IA_tt`, cached as `ia_tt`. -/
structure IATT where
  ae2e2 : Vec
  ab2b2 : Vec
deriving DecidableEq

/-- The tuple returned by FAST-PT's `IA_mix`, cached as `ia_mix`. -/
structure IAMix where
  a0e2 : Vec
  b0e2 : Vec
  d0ee2 : Vec
  d0bb2 : Vec
deriving DecidableEq

/-- The opaque FAST-PT correlator engine (`self.pt` in the source),
modelled as the bundle of the four engine calls the module makes.  Each
takes the linear power spectrum and the `P_window`/`C_window` tapering
parameters, exactly as at the call sites in `_get_dd_bias` and
`_get_ia_bias`. -/
structure FASTPT where
  one_loop_dd_bias : Vec → Option (ℚ × ℚ) → ℚ → DDBias
  IA_ta : Vec → Option (ℚ × ℚ) → ℚ → IATA
  IA_tt : Vec → Option (ℚ × ℚ) → ℚ → IATT
  IA_mix : Vec → Option (ℚ × ℚ) → ℚ → IAMix

/-- The `PTCalculator` object: feature flags, tapering parameters, the
fixed wavenumber grid `ks`, the opaque engine `pt`, and the four cached
correlator bundles (all `None` until first populated).  The `logspace`
construction of `ks` in `__init__` is not needed by any claim; theorems
quantify over the grid. -/
structure PTCalculator where
  with_NC : Bool
  with_IA : Bool
  P_window : Option (ℚ × ℚ)
  C_window : ℚ
  ks : Vec
  pt : FASTPT
  dd_bias : Option DDBias
  ia_ta : Option IATA
  ia_tt : Option IATT
  ia_mix : Option IAMix

/-- `PTCalculator._get_dd_bias` and `_get_ia_bias` combined with the two
flag tests of `update_pk`: the pure post-state of a successful
`update_pk` call.  If `with_NC`, `dd_bias` is recomputed from the
engine; if `with_IA`, the three IA bundles are recomputed. -/
def refreshBundles (c : PTCalculator) (pk : Vec) : PTCalculator :=
  let c1 := if c.with_NC
    then { c with dd_bias := some (c.pt.one_loop_dd_bias pk c.P_window c.C_window) }
    else c
  if c1.with_IA
    then { c1 with
            ia_ta := some (c1.pt.IA_ta pk c1.P_window c1.C_window),
            ia_tt := some (c1.pt.IA_tt pk c1.P_window c1.C_window),
            ia_mix := some (c1.pt.IA_mix pk c1.P_window c1.C_window) }
    else c1

/-- `PTCalculator.update_pk`.  Returns the post-call object and the
raised error, if any: the shape test (`pk.shape != self.ks.shape`, i.e.
length inequality for these 1-D arrays) runs before anything is
recomputed, so on failure the object is returned untouched. -/
def update_pk (c : PTCalculator) (pk : Vec) : PTCalculator × Option String :=
  if pk.length ≠ c.ks.length then
    (c, some "Input spectrum has wrong shape")
  else
    (refreshBundles c pk, none)

/-! ## Combination formulas (`get_pgg`, `get_pgm`, `get_pim`, `get_pgi`, `get_pii`) -/

/-- `PTCalculator.get_pgg`, the NC×NC combination (source lines
160–178), returning `none` when the `dd_bias` cache was never populated
(where Python would raise at the subscript). -/
def PTCalculator.get_pgg (c : PTCalculator) (Pd1d1 : Grid)
    (g4 b11 b21 bs1 b12 b22 bs2 : Vec) (sub_lowk : Bool) : Option Grid :=
  match c.dd_bias with
  | none => none
  | some db =>
    let Pd1d2 := bcastKZ g4 db.d2
    let Pd2d2 := bcastKZ g4 db.d3
    let Pd1s2 := bcastKZ g4 db.d4
    let Pd2s2 := bcastKZ g4 db.d5
    let Ps2s2 := bcastKZ g4 db.d6
    let s4 : NScal := if sub_lowk then .row (g4.map (fun x => x * db.sig4)) else .scalar 0
    some (gAdd (rowMul (vMul b11 b12) Pd1d1)
         (gAdd (rowMul (vSmul (1/2) (vAdd (vMul b11 b22) (vMul b12 b21))) Pd1d2)
         (gAdd (rowMul (vSmul (1/4) (vMul b21 b22)) (gsubN Pd2d2 (NScal.smul 2 s4)))
         (gAdd (rowMul (vSmul (1/2) (vAdd (vMul b11 bs2) (vMul b12 bs1))) Pd1s2)
         (gAdd (rowMul (vSmul (1/4) (vAdd (vMul b21 bs2) (vMul b22 bs1)))
                       (gsubN Pd2s2 (NScal.smul (4/3) s4)))
               (rowMul (vSmul (1/4) (vMul bs1 bs2))
                       (gsubN Ps2s2 (NScal.smul (8/9) s4))))))))

/-- `PTCalculator.get_pgm`, the NC×Matter combination (source lines
206–213). -/
def PTCalculator.get_pgm (c : PTCalculator) (Pd1d1 : Grid)
    (g4 b1 b2 bs : Vec) : Option Grid :=
  match c.dd_bias with
  | none => none
  | some db =>
    let Pd1d2 := bcastKZ g4 db.d2
    let Pd1s2 := bcastKZ g4 db.d4
    some (gAdd (rowMul b1 Pd1d1)
         (gAdd (rowMul (vSmul (1/2) b2) Pd1d2)
               (rowMul (vSmul (1/2) bs) Pd1s2)))

/-- `PTCalculator.get_pim`, the IA×Matter combination (source lines
241–249). -/
def PTCalculator.get_pim (c : PTCalculator) (Pd1d1 : Grid)
    (g4 c1 c2 cd : Vec) : Option Grid :=
  match c.ia_ta, c.ia_mix with
  | some ta, some mix =>
    some (gAdd (rowMul c1 Pd1d1)
         (gAdd (bcastKZ (vMul g4 cd) (vAdd ta.a00e ta.c00e))
               (bcastKZ (vMul g4 c2) (vAdd mix.a0e2 mix.b0e2))))
  | _, _ => none

/-- The warning text `get_pgi` passes to `warnings.warn` on entry. -/
def pgi_warning : String :=
  "The full non-linear model for the cross-correlation between number counts and intrinsic alignments is still work in progress in FastPT. As a workaround CCL assumes a non-linear treatment of IAs, but only linearly biased number counts."

/-- `PTCalculator.get_pgi`, the NC×IA combination (source lines
280–294): `b1[None, :]` times the IA×Matter expression.  The first
component is the list of warnings the call emits (the `warnings.warn`
call is unconditional and precedes everything else); the `b2` and `bs`
parameters are accepted but never read. -/
def PTCalculator.get_pgi (c : PTCalculator) (Pd1d1 : Grid)
    (g4 b1 b2 bs c1 c2 cd : Vec) : List String × Option Grid :=
  ([pgi_warning],
   match c.ia_ta, c.ia_mix with
   | some ta, some mix =>
     some (rowMul b1 (gAdd (rowMul c1 Pd1d1)
          (gAdd (bcastKZ (vMul g4 cd) (vAdd ta.a00e ta.c00e))
                (bcastKZ (vMul g4 c2) (vAdd mix.a0e2 mix.b0e2)))))
   | _, _ => none)

/-- `PTCalculator.get_pii`, the IA×IA combination with its E-mode and
B-mode branches (source lines 326–341), translated verbatim (including
the repeated `cd1` factor in the B-mode third term). -/
def PTCalculator.get_pii (c : PTCalculator) (Pd1d1 : Grid)
    (g4 c11 c21 cd1 c12 c22 cd2 : Vec) (return_bb : Bool) : Option Grid :=
  match c.ia_ta, c.ia_tt, c.ia_mix with
  | some ta, some tt, some mix =>
    if return_bb then
      some (gAdd (bcastKZ (vMul cd1 cd2) ta.a0b0b)
           (gAdd (bcastKZ (vMul (vMul cd1 c22) g4) tt.ab2b2)
                 (bcastKZ (vMul (vAdd (vMul cd1 c22) (vMul cd1 c21)) g4) mix.d0bb2)))
    else
      some (gAdd (rowMul (vMul (vMul c11 c12) g4) Pd1d1)
           (gAdd (bcastKZ (vMul (vAdd (vMul c11 cd2) (vMul c12 cd1)) g4)
                          (vAdd ta.a00e ta.c00e))
           (gAdd (bcastKZ (vMul (vMul cd1 cd2) g4) ta.a0e0e)
           (gAdd (bcastKZ (vMul (vMul c21 c22) g4) tt.ae2e2)
           (gAdd (bcastKZ (vMul (vAdd (vMul c11 c22) (vMul c21 c12)) g4)
                          (vAdd mix.a0e2 mix.b0e2))
                 (bcastKZ (vMul (vAdd (vMul cd1 c22) (vMul cd2 c21)) g4)
                          mix.d0ee2))))))
  | _, _, _ => none

/-! ## Orchestrator (`get_pt_pk2d`) -/

/-- A PT tracer as consumed by the orchestrator: a type tag (the source
compares the `type` attribute against the strings `"NC"`, `"IA"`,
`"M"`) and the redshift-indexed bias functions the tracer classes
expose (`b1`, `b2`, `bs` for number counts; `c1`, `c2`, `cdelta` for
intrinsic alignments; Matter tracers expose none and none are read). -/
structure PTTracer where
  type : String
  b1 : ℚ → ℚ
  b2 : ℚ → ℚ
  bs : ℚ → ℚ
  c1 : ℚ → ℚ
  c2 : ℚ → ℚ
  cdelta : ℚ → ℚ

/-- The background-cosmology evaluator consumed by the orchestrator:
pointwise linear/nonlinear matter power, growth factor (the source's
array calls are elementwise maps of these), and the internal
scale-factor spline samples used when `a_arr` is `None`. -/
structure Cosmology where
  linear_matter_power : ℚ → ℚ → ℚ
  nonlin_matter_power : ℚ → ℚ → ℚ
  growth_factor : ℚ → ℚ
  pk_spline_a : List ℚ

/-- The output 2D interpolant, modelled with exactly the four fields the
call site at source lines 540–543 passes to the `Pk2D` constructor
(`a_arr`, `lk_arr`, `pk_arr`, `is_logp`); the remaining constructor
parameters of the external container — including the extrapolation
orders — are left at the container's own defaults because the call
site does not forward them. -/
structure Pk2D where
  a_arr : List ℚ
  lk_arr : List ℚ
  pk_arr : Grid
  is_logp : Bool
deriving DecidableEq

/-- The `Pd1d1` grid of `get_pt_pk2d` (source lines 446–451): matter
power sampled on the calculator grid at every scale factor, transposed
to `(N_k, N_a)`. -/
def Pd1d1_of (cosmo : Cosmology) (ks a_arr : List ℚ) (use_nonlin : Bool) : Grid :=
  if use_nonlin then
    npT (a_arr.map (fun a => ks.map (fun k => cosmo.nonlin_matter_power k a)))
  else
    npT (a_arr.map (fun a => ks.map (fun k => cosmo.linear_matter_power k a)))

/-- `get_pt_pk2d` (source lines 354–545).  `npLog` is numpy's
elementwise natural logarithm, kept opaque (the module applies it to
the k-grid only, to build the interpolant's `lk_arr` axis).  Returns
the post-call calculator, the warnings emitted, and either the raised
error or the constructed `Pk2D`.  The `extrap_order_lok` /
`extrap_order_hik` parameters are accepted as in the source signature;
the source never uses them.  The `isinstance` tests and the
`ptc=None` / `fastpt`-import preconditions concern Python dynamic
typing and are unrepresentable (and unreachable) in the typed
embedding. -/
def get_pt_pk2d (npLog : ℚ → ℚ) (cosmo : Cosmology) (tracer1 : PTTracer)
    (ptc : PTCalculator) (tracer2? : Option PTTracer)
    (sub_lowk use_nonlin : Bool) (a_arr? : Option (List ℚ))
    (extrap_order_lok extrap_order_hik : ℤ) (return_ia_bb : Bool) :
    PTCalculator × List String × Except String Pk2D :=
  let a_arr := a_arr?.getD cosmo.pk_spline_a
  let tracer2 := tracer2?.getD tracer1
  if (tracer1.type = "NC" ∨ tracer2.type = "NC") ∧ ¬ptc.with_NC then
    (ptc, [], .error "Need number counts bias, but workspace didn't compute it")
  else if (tracer1.type = "IA" ∨ tracer2.type = "IA") ∧ ¬ptc.with_IA then
    (ptc, [], .error "Need intrinsic alignment bias, but workspace didn't compute it")
  else
    let z_arr := a_arr.map (fun a => 1 / a - 1)
    let pk_lin_z0 := ptc.ks.map (fun k => cosmo.linear_matter_power k 1)
    match update_pk ptc pk_lin_z0 with
    | (c, some e) => (c, [], .error e)
    | (c, none) =>
      let ga := a_arr.map cosmo.growth_factor
      let ga2 := vMul ga ga
      let ga4 := vMul ga2 ga2
      let Pd1d1 := Pd1d1_of cosmo c.ks a_arr use_nonlin
      let r : Except String (Grid × List String) :=
        if tracer1.type = "NC" then
          let b11 := z_arr.map tracer1.b1
          let b21 := z_arr.map tracer1.b2
          let bs1 := z_arr.map tracer1.b2
          if tracer2.type = "NC" then
            let b12 := z_arr.map tracer2.b1
            let b22 := z_arr.map tracer2.b2
            let bs2 := z_arr.map tracer2.b2
            match c.get_pgg Pd1d1 ga4 b11 b21 bs1 b12 b22 bs2 sub_lowk with
            | some p => .ok (p, [])
            | none => .error "TypeError: dd_bias not computed"
          else if tracer2.type = "IA" then
            let c12 := z_arr.map tracer2.c1
            let c22 := z_arr.map tracer2.c2
            let cd2 := z_arr.map tracer2.cdelta
            match c.get_pgi Pd1d1 ga4 b11 b21 bs1 c12 c22 cd2 with
            | (w, some p) => .ok (p, w)
            | (_, none) => .error "TypeError: ia bundles not computed"
          else if tracer2.type = "M" then
            match c.get_pgm Pd1d1 ga4 b11 b21 bs1 with
            | some p => .ok (p, [])
            | none => .error "TypeError: dd_bias not computed"
          else
            .error ("Combination " ++ tracer1.type ++ "-" ++ tracer2.type ++
                    " not implemented yet")
        else if tracer1.type = "IA" then
          let c11 := z_arr.map tracer1.c1
          let c21 := z_arr.map tracer1.c2
          let cd1 := z_arr.map tracer1.cdelta
          if tracer2.type = "IA" then
            let c12 := z_arr.map tracer2.c1
            let c22 := z_arr.map tracer2.c2
            let cd2 := z_arr.map tracer2.cdelta
            match c.get_pii Pd1d1 ga4 c11 c21 cd1 c12 c22 cd2 return_ia_bb with
            | some p => .ok (p, [])
            | none => .error "TypeError: ia bundles not computed"
          else if tracer2.type = "NC" then
            let b12 := z_arr.map tracer2.b1
            let b22 := z_arr.map tracer2.b2
            let bs2 := z_arr.map tracer2.b2
            match c.get_pgi Pd1d1 ga4 b12 b22 bs2 c11 c21 cd1 with
            | (w, some p) => .ok (p, w)
            | (_, none) => .error "TypeError: ia bundles not computed"
          else if tracer2.type = "M" then
            match c.get_pim Pd1d1 ga4 c11 c21 cd1 with
            | some p => .ok (p, [])
            | none => .error "TypeError: ia bundles not computed"
          else
            .error ("Combination " ++ tracer1.type ++ "-" ++ tracer2.type ++
                    " not implemented yet")
        else if tracer1.type = "M" then
          if tracer2.type = "NC" then
            let b12 := z_arr.map tracer2.b1
            let b22 := z_arr.map tracer2.b2
            let bs2 := z_arr.map tracer2.b2
            match c.get_pgm Pd1d1 ga4 b12 b22 bs2 with
            | some p => .ok (p, [])
            | none => .error "TypeError: dd_bias not computed"
          else if tracer2.type = "IA" then
            let c12 := z_arr.map tracer2.c1
            let c22 := z_arr.map tracer2.c2
            let cd2 := z_arr.map tracer2.cdelta
            match c.get_pim Pd1d1 ga4 c12 c22 cd2 with
            | some p => .ok (p, [])
            | none => .error "TypeError: ia bundles not computed"
          else if tracer2.type = "M" then
            .ok (Pd1d1, [])
          else
            .error ("Combination " ++ tracer1.type ++ "-" ++ tracer2.type ++
                    " not implemented yet")
        else
          .error ("Combination " ++ tracer1.type ++ "-" ++ tracer2.type ++
                  " not implemented yet")
      match r with
      | .error e => (c, [], .error e)
      | .ok (p_pt, warns) =>
        (c, warns, .ok ⟨a_arr, c.ks.map npLog, npT p_pt, false⟩)

/-! ## Shape and cell lemmas for the array primitives -/

/-- `P` is a rectangular `(nk, nz)` grid. -/
def Rect (nk nz : ℕ) (P : Grid) : Prop :=
  P.length = nk ∧ ∀ (k : ℕ) (h : k < P.length), P[k].length = nz

@[simp] theorem len_vMul (a b : Vec) : (vMul a b).length = min a.length b.length := by
  simp [vMul]

@[simp] theorem len_vAdd (a b : Vec) : (vAdd a b).length = min a.length b.length := by
  simp [vAdd]

@[simp] theorem len_vSmul (c : ℚ) (a : Vec) : (vSmul c a).length = a.length := by
  simp [vSmul]

theorem getD_vMul {a b : Vec} {i : ℕ} (ha : i < a.length) (hb : i < b.length) :
    (vMul a b).getD i 0 = a.getD i 0 * b.getD i 0 := by
  unfold vMul
  rw [List.getD_eq_getElem _ _ (by simp; omega), List.getElem_zipWith,
      List.getD_eq_getElem _ _ ha, List.getD_eq_getElem _ _ hb]

theorem getD_vAdd {a b : Vec} {i : ℕ} (ha : i < a.length) (hb : i < b.length) :
    (vAdd a b).getD i 0 = a.getD i 0 + b.getD i 0 := by
  unfold vAdd
  rw [List.getD_eq_getElem _ _ (by simp; omega), List.getElem_zipWith,
      List.getD_eq_getElem _ _ ha, List.getD_eq_getElem _ _ hb]

theorem getD_vSmul {a : Vec} (c : ℚ) {i : ℕ} (ha : i < a.length) :
    (vSmul c a).getD i 0 = c * a.getD i 0 := by
  unfold vSmul
  rw [List.getD_eq_getElem _ _ (by simpa using ha), List.getElem_map,
      List.getD_eq_getElem _ _ ha]

theorem getD_map_in (f : ℚ → ℚ) {a : Vec} {i : ℕ} (h : i < a.length) :
    (a.map f).getD i 0 = f (a.getD i 0) := by
  rw [List.getD_eq_getElem _ _ (by simpa using h), List.getElem_map,
      List.getD_eq_getElem _ _ h]

theorem getD_replicate_in {n i : ℕ} (x : ℚ) (h : i < n) :
    (List.replicate n x).getD i 0 = x := by
  rw [List.getD_eq_getElem _ _ (by simpa using h)]
  simp

theorem Rect_bcastKZ {nk nz : ℕ} {g v : Vec} (hg : g.length = nz) (hv : v.length = nk) :
    Rect nk nz (bcastKZ g v) := by
  refine ⟨by simp [bcastKZ, hv], ?_⟩
  intro k hk
  simp only [bcastKZ] at hk ⊢
  rw [List.getElem_map]
  simp [hg]

theorem Rect_rowMul {nk nz : ℕ} {w : Vec} {P : Grid} (hw : w.length = nz)
    (hP : Rect nk nz P) : Rect nk nz (rowMul w P) := by
  refine ⟨by simp [rowMul, hP.1], ?_⟩
  intro k hk
  simp only [rowMul, List.length_map] at hk ⊢
  rw [List.getElem_map]
  simp [hw, hP.2 k hk]

theorem Rect_gAdd {nk nz : ℕ} {P Q : Grid} (hP : Rect nk nz P) (hQ : Rect nk nz Q) :
    Rect nk nz (gAdd P Q) := by
  refine ⟨by simp [gAdd, hP.1, hQ.1], ?_⟩
  intro k hk
  simp only [gAdd, List.length_zipWith] at hk ⊢
  rw [List.getElem_zipWith]
  simp [hP.2 k (by omega), hQ.2 k (by omega)]

theorem Rect_gsubN_scalar {nk nz : ℕ} {P : Grid} (hP : Rect nk nz P) (x : ℚ) :
    Rect nk nz (gsubN P (.scalar x)) := by
  refine ⟨by simp [gsubN, hP.1], ?_⟩
  intro k hk
  simp only [gsubN, List.length_map] at hk ⊢
  rw [List.getElem_map]
  simp [hP.2 k hk]

theorem Rect_gsubN_row {nk nz : ℕ} {P : Grid} {v : Vec} (hP : Rect nk nz P)
    (hv : v.length = nz) : Rect nk nz (gsubN P (.row v)) := by
  refine ⟨by simp [gsubN, hP.1], ?_⟩
  intro k hk
  simp only [gsubN, List.length_map] at hk ⊢
  rw [List.getElem_map]
  simp [hP.2 k hk, hv]

theorem Rect_GridOfFn (nk nz : ℕ) (f : ℕ → ℕ → ℚ) : Rect nk nz (GridOfFn nk nz f) := by
  refine ⟨by simp [GridOfFn], ?_⟩
  intro k hk
  simp only [GridOfFn, List.length_map] at hk ⊢
  rw [List.getElem_map]
  simp

theorem getD_zipWith_in (f : ℚ → ℚ → ℚ) {a b : Vec} {i : ℕ}
    (ha : i < a.length) (hb : i < b.length) :
    (List.zipWith f a b).getD i 0 = f (a.getD i 0) (b.getD i 0) := by
  rw [List.getD_eq_getElem _ _ (by simp; omega), List.getElem_zipWith,
      List.getD_eq_getElem _ _ ha, List.getD_eq_getElem _ _ hb]

theorem cell_bcastKZ {g v : Vec} {k z : ℕ} (hk : k < v.length) (hz : z < g.length) :
    gcell (bcastKZ g v) k z = g.getD z 0 * v.getD k 0 := by
  have hk' : k < (bcastKZ g v).length := by simpa [bcastKZ] using hk
  unfold gcell
  rw [List.getD_eq_getElem _ [] hk']
  simp only [bcastKZ, List.getElem_map]
  rw [getD_map_in _ hz, List.getD_eq_getElem _ _ hk]

theorem cell_rowMul {nk nz : ℕ} {w : Vec} {P : Grid} (hw : w.length = nz)
    (hP : Rect nk nz P) {k z : ℕ} (hk : k < nk) (hz : z < nz) :
    gcell (rowMul w P) k z = w.getD z 0 * gcell P k z := by
  have hkP : k < P.length := by rw [hP.1]; exact hk
  have hrow : P[k].length = nz := hP.2 k hkP
  have hk' : k < (rowMul w P).length := by simpa [rowMul] using hkP
  unfold gcell
  rw [List.getD_eq_getElem _ [] hk']
  simp only [rowMul, List.getElem_map]
  rw [getD_zipWith_in _ (by rw [hw]; exact hz) (by rw [hrow]; exact hz),
      List.getD_eq_getElem P [] hkP]

theorem cell_gAdd {nk nz : ℕ} {P Q : Grid} (hP : Rect nk nz P) (hQ : Rect nk nz Q)
    {k z : ℕ} (hk : k < nk) (hz : z < nz) :
    gcell (gAdd P Q) k z = gcell P k z + gcell Q k z := by
  have hkP : k < P.length := by rw [hP.1]; exact hk
  have hkQ : k < Q.length := by rw [hQ.1]; exact hk
  have hrP : P[k].length = nz := hP.2 k hkP
  have hrQ : Q[k].length = nz := hQ.2 k hkQ
  have hk' : k < (gAdd P Q).length := by simp [gAdd]; omega
  unfold gcell
  rw [List.getD_eq_getElem _ [] hk']
  simp only [gAdd, List.getElem_zipWith]
  unfold vAdd
  rw [getD_zipWith_in _ (by rw [hrP]; exact hz) (by rw [hrQ]; exact hz),
      List.getD_eq_getElem P [] hkP, List.getD_eq_getElem Q [] hkQ]

theorem cell_gsubN_scalar {nk nz : ℕ} {P : Grid} (hP : Rect nk nz P) (x : ℚ)
    {k z : ℕ} (hk : k < nk) (hz : z < nz) :
    gcell (gsubN P (.scalar x)) k z = gcell P k z - x := by
  have hkP : k < P.length := by rw [hP.1]; exact hk
  have hrow : P[k].length = nz := hP.2 k hkP
  have hk' : k < (gsubN P (.scalar x)).length := by simpa [gsubN] using hkP
  unfold gcell
  rw [List.getD_eq_getElem _ [] hk']
  simp only [gsubN, List.getElem_map]
  rw [getD_map_in _ (by rw [hrow]; exact hz), List.getD_eq_getElem P [] hkP]

theorem cell_gsubN_row {nk nz : ℕ} {P : Grid} {v : Vec} (hP : Rect nk nz P)
    (hv : v.length = nz) {k z : ℕ} (hk : k < nk) (hz : z < nz) :
    gcell (gsubN P (.row v)) k z = gcell P k z - v.getD z 0 := by
  have hkP : k < P.length := by rw [hP.1]; exact hk
  have hrow : P[k].length = nz := hP.2 k hkP
  have hk' : k < (gsubN P (.row v)).length := by simpa [gsubN] using hkP
  unfold gcell
  rw [List.getD_eq_getElem _ [] hk']
  simp only [gsubN, List.getElem_map]
  rw [getD_zipWith_in _ (by rw [hrow]; exact hz) (by rw [hv]; exact hz),
      List.getD_eq_getElem P [] hkP]

theorem cell_GridOfFn {nk nz : ℕ} (f : ℕ → ℕ → ℚ) {k z : ℕ} (hk : k < nk) (hz : z < nz) :
    gcell (GridOfFn nk nz f) k z = f k z := by
  have hk' : k < (GridOfFn nk nz f).length := by simpa [GridOfFn] using hk
  unfold gcell
  rw [List.getD_eq_getElem _ [] hk']
  simp only [GridOfFn, List.getElem_map]
  rw [List.getD_eq_getElem _ _ (by simpa using hz), List.getElem_map]
  simp [List.getElem_range]

theorem Rect_ext {nk nz : ℕ} {P Q : Grid} (hP : Rect nk nz P) (hQ : Rect nk nz Q)
    (h : ∀ k z, k < nk → z < nz → gcell P k z = gcell Q k z) : P = Q := by
  apply List.ext_getElem (by rw [hP.1, hQ.1])
  intro k hk1 hk2
  apply List.ext_getElem (by rw [hP.2 k hk1, hQ.2 k hk2])
  intro z hz1 hz2
  have e := h k z (by rw [← hP.1]; exact hk1) (by rw [← hP.2 k hk1]; exact hz1)
  unfold gcell at e
  rwa [List.getD_eq_getElem _ _ hk1, List.getD_eq_getElem _ _ hz1,
       List.getD_eq_getElem _ _ hk2, List.getD_eq_getElem _ _ hz2] at e

/-! ## The NC×NC formula as the spec states it -/

/-- The NC×NC combination exactly as the spec/claim words it: the
`(nk, nz)` grid whose `(k, z)` cell is
`(b11*b12)*Pd1d1 + 0.5(b11*b22+b12*b21)*Pd1d2 + 0.25(b21*b22)*(Pd2d2-2*s4)
 + 0.5(b11*bs2+b12*bs1)*Pd1s2 + 0.25(b21*bs2+b22*bs1)*(Pd2s2-(4/3)*s4)
 + 0.25(bs1*bs2)*(Ps2s2-(8/9)*s4)`, with `PdXdY` the outer broadcast of
`g4` against `dd_bias[i]` and `s4` the broadcast of `g4` against the
(scalar) `dd_bias[7]` when `sub_lowk` holds, else `0`. -/
def pggSpec (db : DDBias) (Pd1d1 : Grid) (g4 b11 b21 bs1 b12 b22 bs2 : Vec)
    (sub_lowk : Bool) (nk nz : ℕ) : Grid :=
  GridOfFn nk nz (fun k z =>
    b11.getD z 0 * b12.getD z 0 * gcell Pd1d1 k z
    + (1/2) * (b11.getD z 0 * b22.getD z 0 + b12.getD z 0 * b21.getD z 0) *
        (g4.getD z 0 * db.d2.getD k 0)
    + (1/4) * (b21.getD z 0 * b22.getD z 0) *
        (g4.getD z 0 * db.d3.getD k 0 -
          2 * (if sub_lowk then g4.getD z 0 * db.sig4 else 0))
    + (1/2) * (b11.getD z 0 * bs2.getD z 0 + b12.getD z 0 * bs1.getD z 0) *
        (g4.getD z 0 * db.d4.getD k 0)
    + (1/4) * (b21.getD z 0 * bs2.getD z 0 + b22.getD z 0 * bs1.getD z 0) *
        (g4.getD z 0 * db.d5.getD k 0 -
          (4/3) * (if sub_lowk then g4.getD z 0 * db.sig4 else 0))
    + (1/4) * (bs1.getD z 0 * bs2.getD z 0) *
        (g4.getD z 0 * db.d6.getD k 0 -
          (8/9) * (if sub_lowk then g4.getD z 0 * db.sig4 else 0)))

/-- Well-shapedness of `get_pgg`'s inputs: `Pd1d1` is an `(nk, nz)` grid,
the redshift-indexed vectors have length `nz`, and the consumed
wavenumber-indexed correlator arrays have length `nk`. -/
def PggShapes (db : DDBias) (Pd1d1 : Grid) (g4 b11 b21 bs1 b12 b22 bs2 : Vec)
    (nk nz : ℕ) : Prop :=
  Rect nk nz Pd1d1 ∧ g4.length = nz ∧
  b11.length = nz ∧ b21.length = nz ∧ bs1.length = nz ∧
  b12.length = nz ∧ b22.length = nz ∧ bs2.length = nz ∧
  db.d2.length = nk ∧ db.d3.length = nk ∧ db.d4.length = nk ∧
  db.d5.length = nk ∧ db.d6.length = nk

/-- Cell of a six-term grid sum. -/
theorem cell_gAdd6 {nk nz : ℕ} {A B C D E F : Grid}
    (hA : Rect nk nz A) (hB : Rect nk nz B) (hC : Rect nk nz C)
    (hD : Rect nk nz D) (hE : Rect nk nz E) (hF : Rect nk nz F)
    {k z : ℕ} (hk : k < nk) (hz : z < nz) :
    gcell (gAdd A (gAdd B (gAdd C (gAdd D (gAdd E F))))) k z =
      gcell A k z + gcell B k z + gcell C k z + gcell D k z + gcell E k z + gcell F k z := by
  rw [cell_gAdd hA (Rect_gAdd hB (Rect_gAdd hC (Rect_gAdd hD (Rect_gAdd hE hF)))) hk hz,
      cell_gAdd hB (Rect_gAdd hC (Rect_gAdd hD (Rect_gAdd hE hF))) hk hz,
      cell_gAdd hC (Rect_gAdd hD (Rect_gAdd hE hF)) hk hz,
      cell_gAdd hD (Rect_gAdd hE hF) hk hz,
      cell_gAdd hE hF hk hz]
  ring

set_option maxHeartbeats 4000000 in
/-- Pointwise characterization of `get_pgg`: on well-shaped inputs it
produces exactly the spec's NC×NC grid.  Shared workhorse lemma. -/
theorem get_pgg_eq (c : PTCalculator) (db : DDBias) (Pd1d1 : Grid)
    (g4 b11 b21 bs1 b12 b22 bs2 : Vec) (sub_lowk : Bool) (nk nz : ℕ)
    (hdb : c.dd_bias = some db)
    (hs : PggShapes db Pd1d1 g4 b11 b21 bs1 b12 b22 bs2 nk nz) :
    c.get_pgg Pd1d1 g4 b11 b21 bs1 b12 b22 bs2 sub_lowk =
      some (pggSpec db Pd1d1 g4 b11 b21 bs1 b12 b22 bs2 sub_lowk nk nz) := by
  obtain ⟨hP, hg, h11, h21, hs1, h12, h22, hs2, hd2, hd3, hd4, hd5, hd6⟩ := hs
  have R2 : Rect nk nz (bcastKZ g4 db.d2) := Rect_bcastKZ hg hd2
  have R3 : Rect nk nz (bcastKZ g4 db.d3) := Rect_bcastKZ hg hd3
  have R4 : Rect nk nz (bcastKZ g4 db.d4) := Rect_bcastKZ hg hd4
  have R5 : Rect nk nz (bcastKZ g4 db.d5) := Rect_bcastKZ hg hd5
  have R6 : Rect nk nz (bcastKZ g4 db.d6) := Rect_bcastKZ hg hd6
  have l1 : (vMul b11 b12).length = nz := by simp [h11, h12]
  have l2 : (vSmul (1/2 : ℚ) (vAdd (vMul b11 b22) (vMul b12 b21))).length = nz := by
    simp [h11, h22, h12, h21]
  have l3 : (vSmul (1/4 : ℚ) (vMul b21 b22)).length = nz := by simp [h21, h22]
  have l4 : (vSmul (1/2 : ℚ) (vAdd (vMul b11 bs2) (vMul b12 bs1))).length = nz := by
    simp [h11, hs2, h12, hs1]
  have l5 : (vSmul (1/4 : ℚ) (vAdd (vMul b21 bs2) (vMul b22 bs1))).length = nz := by
    simp [h21, hs2, h22, hs1]
  have l6 : (vSmul (1/4 : ℚ) (vMul bs1 bs2)).length = nz := by simp [hs1, hs2]
  cases sub_lowk with
  | false =>
    simp only [PTCalculator.get_pgg, hdb, Bool.false_eq_true, if_false, NScal.smul]
    refine congrArg some ?_
    have S3 := Rect_gsubN_scalar R3 ((2 : ℚ) * 0)
    have S5 := Rect_gsubN_scalar R5 ((4 : ℚ)/3 * 0)
    have S6 := Rect_gsubN_scalar R6 ((8 : ℚ)/9 * 0)
    have RT1 := Rect_rowMul l1 hP
    have RT2 := Rect_rowMul l2 R2
    have RT3 := Rect_rowMul l3 S3
    have RT4 := Rect_rowMul l4 R4
    have RT5 := Rect_rowMul l5 S5
    have RT6 := Rect_rowMul l6 S6
    refine Rect_ext (Rect_gAdd RT1 (Rect_gAdd RT2 (Rect_gAdd RT3 (Rect_gAdd RT4
      (Rect_gAdd RT5 RT6))))) (Rect_GridOfFn nk nz _) ?_
    intro k z hk hz
    have hz11 : z < b11.length := by rw [h11]; exact hz
    have hz21 : z < b21.length := by rw [h21]; exact hz
    have hzs1 : z < bs1.length := by rw [hs1]; exact hz
    have hz12 : z < b12.length := by rw [h12]; exact hz
    have hz22 : z < b22.length := by rw [h22]; exact hz
    have hzs2 : z < bs2.length := by rw [hs2]; exact hz
    have hzg : z < g4.length := by rw [hg]; exact hz
    have hk2 : k < db.d2.length := by rw [hd2]; exact hk
    have hk3 : k < db.d3.length := by rw [hd3]; exact hk
    have hk4 : k < db.d4.length := by rw [hd4]; exact hk
    have hk5 : k < db.d5.length := by rw [hd5]; exact hk
    have hk6 : k < db.d6.length := by rw [hd6]; exact hk
    have ha2 : z < (vAdd (vMul b11 b22) (vMul b12 b21)).length := by
      simp [h11, h22, h12, h21]; exact hz
    have ha4 : z < (vAdd (vMul b11 bs2) (vMul b12 bs1)).length := by
      simp [h11, hs2, h12, hs1]; exact hz
    have ha5 : z < (vAdd (vMul b21 bs2) (vMul b22 bs1)).length := by
      simp [h21, hs2, h22, hs1]; exact hz
    have hm1 : z < (vMul b11 b22).length := by simp [h11, h22]; exact hz
    have hm2 : z < (vMul b12 b21).length := by simp [h12, h21]; exact hz
    have hm3 : z < (vMul b21 b22).length := by simp [h21, h22]; exact hz
    have hm4 : z < (vMul b11 bs2).length := by simp [h11, hs2]; exact hz
    have hm5 : z < (vMul b12 bs1).length := by simp [h12, hs1]; exact hz
    have hm6 : z < (vMul b21 bs2).length := by simp [h21, hs2]; exact hz
    have hm7 : z < (vMul b22 bs1).length := by simp [h22, hs1]; exact hz
    have hm8 : z < (vMul bs1 bs2).length := by simp [hs1, hs2]; exact hz
    have e1 : gcell (rowMul (vMul b11 b12) Pd1d1) k z
        = b11.getD z 0 * b12.getD z 0 * gcell Pd1d1 k z := by
      rw [cell_rowMul l1 hP hk hz, getD_vMul hz11 hz12]
    have e2 : gcell (rowMul (vSmul (1/2) (vAdd (vMul b11 b22) (vMul b12 b21)))
          (bcastKZ g4 db.d2)) k z
        = (1/2) * (b11.getD z 0 * b22.getD z 0 + b12.getD z 0 * b21.getD z 0) *
            (g4.getD z 0 * db.d2.getD k 0) := by
      rw [cell_rowMul l2 R2 hk hz, cell_bcastKZ hk2 hzg, getD_vSmul _ ha2,
          getD_vAdd hm1 hm2, getD_vMul hz11 hz22, getD_vMul hz12 hz21]
    have e3 : gcell (rowMul (vSmul (1/4) (vMul b21 b22))
          (gsubN (bcastKZ g4 db.d3) (NScal.scalar (2 * 0)))) k z
        = (1/4) * (b21.getD z 0 * b22.getD z 0) *
            (g4.getD z 0 * db.d3.getD k 0 - 2 * 0) := by
      rw [cell_rowMul l3 S3 hk hz, cell_gsubN_scalar R3 _ hk hz, cell_bcastKZ hk3 hzg,
          getD_vSmul _ hm3, getD_vMul hz21 hz22]
    have e4 : gcell (rowMul (vSmul (1/2) (vAdd (vMul b11 bs2) (vMul b12 bs1)))
          (bcastKZ g4 db.d4)) k z
        = (1/2) * (b11.getD z 0 * bs2.getD z 0 + b12.getD z 0 * bs1.getD z 0) *
            (g4.getD z 0 * db.d4.getD k 0) := by
      rw [cell_rowMul l4 R4 hk hz, cell_bcastKZ hk4 hzg, getD_vSmul _ ha4,
          getD_vAdd hm4 hm5, getD_vMul hz11 hzs2, getD_vMul hz12 hzs1]
    have e5 : gcell (rowMul (vSmul (1/4) (vAdd (vMul b21 bs2) (vMul b22 bs1)))
          (gsubN (bcastKZ g4 db.d5) (NScal.scalar (4/3 * 0)))) k z
        = (1/4) * (b21.getD z 0 * bs2.getD z 0 + b22.getD z 0 * bs1.getD z 0) *
            (g4.getD z 0 * db.d5.getD k 0 - 4/3 * 0) := by
      rw [cell_rowMul l5 S5 hk hz, cell_gsubN_scalar R5 _ hk hz, cell_bcastKZ hk5 hzg,
          getD_vSmul _ ha5, getD_vAdd hm6 hm7, getD_vMul hz21 hzs2, getD_vMul hz22 hzs1]
    have e6 : gcell (rowMul (vSmul (1/4) (vMul bs1 bs2))
          (gsubN (bcastKZ g4 db.d6) (NScal.scalar (8/9 * 0)))) k z
        = (1/4) * (bs1.getD z 0 * bs2.getD z 0) *
            (g4.getD z 0 * db.d6.getD k 0 - 8/9 * 0) := by
      rw [cell_rowMul l6 S6 hk hz, cell_gsubN_scalar R6 _ hk hz, cell_bcastKZ hk6 hzg,
          getD_vSmul _ hm8, getD_vMul hzs1 hzs2]
    rw [cell_gAdd6 RT1 RT2 RT3 RT4 RT5 RT6 hk hz, e1, e2, e3, e4, e5, e6]
    unfold pggSpec
    rw [cell_GridOfFn _ hk hz]
    simp only [Bool.false_eq_true, if_false]
  | true =>
    simp only [PTCalculator.get_pgg, hdb, eq_self_iff_true, if_true, NScal.smul]
    refine congrArg some ?_
    have lr2 : ((g4.map (fun x => x * db.sig4)).map (fun x => 2 * x)).length = nz := by
      simp [hg]
    have lr43 : ((g4.map (fun x => x * db.sig4)).map (fun x => 4/3 * x)).length = nz := by
      simp [hg]
    have lr89 : ((g4.map (fun x => x * db.sig4)).map (fun x => 8/9 * x)).length = nz := by
      simp [hg]
    have S3 := Rect_gsubN_row R3 lr2
    have S5 := Rect_gsubN_row R5 lr43
    have S6 := Rect_gsubN_row R6 lr89
    have RT1 := Rect_rowMul l1 hP
    have RT2 := Rect_rowMul l2 R2
    have RT3 := Rect_rowMul l3 S3
    have RT4 := Rect_rowMul l4 R4
    have RT5 := Rect_rowMul l5 S5
    have RT6 := Rect_rowMul l6 S6
    refine Rect_ext (Rect_gAdd RT1 (Rect_gAdd RT2 (Rect_gAdd RT3 (Rect_gAdd RT4
      (Rect_gAdd RT5 RT6))))) (Rect_GridOfFn nk nz _) ?_
    intro k z hk hz
    have hz11 : z < b11.length := by rw [h11]; exact hz
    have hz21 : z < b21.length := by rw [h21]; exact hz
    have hzs1 : z < bs1.length := by rw [hs1]; exact hz
    have hz12 : z < b12.length := by rw [h12]; exact hz
    have hz22 : z < b22.length := by rw [h22]; exact hz
    have hzs2 : z < bs2.length := by rw [hs2]; exact hz
    have hzg : z < g4.length := by rw [hg]; exact hz
    have hzg' : z < (g4.map (fun x => x * db.sig4)).length := by rw [List.length_map, hg]; exact hz
    have hk2 : k < db.d2.length := by rw [hd2]; exact hk
    have hk3 : k < db.d3.length := by rw [hd3]; exact hk
    have hk4 : k < db.d4.length := by rw [hd4]; exact hk
    have hk5 : k < db.d5.length := by rw [hd5]; exact hk
    have hk6 : k < db.d6.length := by rw [hd6]; exact hk
    have ha2 : z < (vAdd (vMul b11 b22) (vMul b12 b21)).length := by
      simp [h11, h22, h12, h21]; exact hz
    have ha4 : z < (vAdd (vMul b11 bs2) (vMul b12 bs1)).length := by
      simp [h11, hs2, h12, hs1]; exact hz
    have ha5 : z < (vAdd (vMul b21 bs2) (vMul b22 bs1)).length := by
      simp [h21, hs2, h22, hs1]; exact hz
    have hm1 : z < (vMul b11 b22).length := by simp [h11, h22]; exact hz
    have hm2 : z < (vMul b12 b21).length := by simp [h12, h21]; exact hz
    have hm3 : z < (vMul b21 b22).length := by simp [h21, h22]; exact hz
    have hm4 : z < (vMul b11 bs2).length := by simp [h11, hs2]; exact hz
    have hm5 : z < (vMul b12 bs1).length := by simp [h12, hs1]; exact hz
    have hm6 : z < (vMul b21 bs2).length := by simp [h21, hs2]; exact hz
    have hm7 : z < (vMul b22 bs1).length := by simp [h22, hs1]; exact hz
    have hm8 : z < (vMul bs1 bs2).length := by simp [hs1, hs2]; exact hz
    have es4 : ∀ cq : ℚ, ((g4.map (fun x => x * db.sig4)).map (fun x => cq * x)).getD z 0
        = cq * (g4.getD z 0 * db.sig4) := by
      intro cq
      rw [getD_map_in _ hzg', getD_map_in _ hzg]
    have e1 : gcell (rowMul (vMul b11 b12) Pd1d1) k z
        = b11.getD z 0 * b12.getD z 0 * gcell Pd1d1 k z := by
      rw [cell_rowMul l1 hP hk hz, getD_vMul hz11 hz12]
    have e2 : gcell (rowMul (vSmul (1/2) (vAdd (vMul b11 b22) (vMul b12 b21)))
          (bcastKZ g4 db.d2)) k z
        = (1/2) * (b11.getD z 0 * b22.getD z 0 + b12.getD z 0 * b21.getD z 0) *
            (g4.getD z 0 * db.d2.getD k 0) := by
      rw [cell_rowMul l2 R2 hk hz, cell_bcastKZ hk2 hzg, getD_vSmul _ ha2,
          getD_vAdd hm1 hm2, getD_vMul hz11 hz22, getD_vMul hz12 hz21]
    have e3 : gcell (rowMul (vSmul (1/4) (vMul b21 b22))
          (gsubN (bcastKZ g4 db.d3)
            (NScal.row ((g4.map (fun x => x * db.sig4)).map (fun x => 2 * x))))) k z
        = (1/4) * (b21.getD z 0 * b22.getD z 0) *
            (g4.getD z 0 * db.d3.getD k 0 - 2 * (g4.getD z 0 * db.sig4)) := by
      rw [cell_rowMul l3 S3 hk hz, cell_gsubN_row R3 lr2 hk hz, cell_bcastKZ hk3 hzg,
          getD_vSmul _ hm3, getD_vMul hz21 hz22, es4 2]
    have e4 : gcell (rowMul (vSmul (1/2) (vAdd (vMul b11 bs2) (vMul b12 bs1)))
          (bcastKZ g4 db.d4)) k z
        = (1/2) * (b11.getD z 0 * bs2.getD z 0 + b12.getD z 0 * bs1.getD z 0) *
            (g4.getD z 0 * db.d4.getD k 0) := by
      rw [cell_rowMul l4 R4 hk hz, cell_bcastKZ hk4 hzg, getD_vSmul _ ha4,
          getD_vAdd hm4 hm5, getD_vMul hz11 hzs2, getD_vMul hz12 hzs1]
    have e5 : gcell (rowMul (vSmul (1/4) (vAdd (vMul b21 bs2) (vMul b22 bs1)))
          (gsubN (bcastKZ g4 db.d5)
            (NScal.row ((g4.map (fun x => x * db.sig4)).map (fun x => 4/3 * x))))) k z
        = (1/4) * (b21.getD z 0 * bs2.getD z 0 + b22.getD z 0 * bs1.getD z 0) *
            (g4.getD z 0 * db.d5.getD k 0 - 4/3 * (g4.getD z 0 * db.sig4)) := by
      rw [cell_rowMul l5 S5 hk hz, cell_gsubN_row R5 lr43 hk hz, cell_bcastKZ hk5 hzg,
          getD_vSmul _ ha5, getD_vAdd hm6 hm7, getD_vMul hz21 hzs2, getD_vMul hz22 hzs1,
          es4 (4/3)]
    have e6 : gcell (rowMul (vSmul (1/4) (vMul bs1 bs2))
          (gsubN (bcastKZ g4 db.d6)
            (NScal.row ((g4.map (fun x => x * db.sig4)).map (fun x => 8/9 * x))))) k z
        = (1/4) * (bs1.getD z 0 * bs2.getD z 0) *
            (g4.getD z 0 * db.d6.getD k 0 - 8/9 * (g4.getD z 0 * db.sig4)) := by
      rw [cell_rowMul l6 S6 hk hz, cell_gsubN_row R6 lr89 hk hz, cell_bcastKZ hk6 hzg,
          getD_vSmul _ hm8, getD_vMul hzs1 hzs2, es4 (8/9)]
    rw [cell_gAdd6 RT1 RT2 RT3 RT4 RT5 RT6 hk hz, e1, e2, e3, e4, e5, e6]
    unfold pggSpec
    rw [cell_GridOfFn _ hk hz]
    simp only [eq_self_iff_true, if_true]

/-! ## Small helper lemmas about the calculator state -/

@[simp] theorem refreshBundles_ks (c : PTCalculator) (pk : Vec) :
    (refreshBundles c pk).ks = c.ks := by
  simp only [refreshBundles]
  split_ifs <;> rfl

@[simp] theorem refreshBundles_with_NC (c : PTCalculator) (pk : Vec) :
    (refreshBundles c pk).with_NC = c.with_NC := by
  simp only [refreshBundles]
  split_ifs <;> rfl

@[simp] theorem refreshBundles_with_IA (c : PTCalculator) (pk : Vec) :
    (refreshBundles c pk).with_IA = c.with_IA := by
  simp only [refreshBundles]
  split_ifs <;> rfl

/-! ## Concrete instances used in witnesses and counterexamples -/

/-- A concrete engine for building concrete calculators: `one_loop_dd_bias`
returns zero arrays except `Ps2s2` (index 6) which is the constant `[1]`,
with `sig4 = 0`; the IA bundles are zero arrays. -/
def fptW : FASTPT where
  one_loop_dd_bias := fun _ _ _ => ⟨[0], [0], [0], [0], [0], [0], [1], 0⟩
  IA_ta := fun _ _ _ => ⟨[0], [0], [0], [0]⟩
  IA_tt := fun _ _ _ => ⟨[0], [0]⟩
  IA_mix := fun _ _ _ => ⟨[0], [0], [0], [0]⟩

/-- Cosmology with zero matter power, unit growth and one spline sample. -/
def cosmoC1 : Cosmology where
  linear_matter_power := fun _ _ => 0
  nonlin_matter_power := fun _ _ => 0
  growth_factor := fun _ => 1
  pk_spline_a := [1]

/-- A number-counts tracer whose `b2` and `bs` functions differ
everywhere (`b2 = 5`, `bs = 7`), isolating which one the orchestrator
evaluates. -/
def trC1 : PTTracer where
  type := "NC"
  b1 := fun _ => 0
  b2 := fun _ => 5
  bs := fun _ => 7
  c1 := fun _ => 0
  c2 := fun _ => 0
  cdelta := fun _ => 0

/-- One-point calculator with number-counts support only. -/
def ptcC1 : PTCalculator where
  with_NC := true
  with_IA := false
  P_window := none
  C_window := 3/4
  ks := [1]
  pt := fptW
  dd_bias := none
  ia_ta := none
  ia_tt := none
  ia_mix := none

/-- One-point calculator with both feature flags off (for C10/C3/C4). -/
def ptcM : PTCalculator where
  with_NC := false
  with_IA := false
  P_window := none
  C_window := 3/4
  ks := [1]
  pt := fptW
  dd_bias := none
  ia_ta := none
  ia_tt := none
  ia_mix := none

/-- Simple cosmology with constant powers and unit growth. -/
def cosmoM : Cosmology where
  linear_matter_power := fun _ _ => 1
  nonlin_matter_power := fun _ _ => 2
  growth_factor := fun _ => 1
  pk_spline_a := [1]

/-- A matter tracer. -/
def trM : PTTracer where
  type := "M"
  b1 := fun _ => 0
  b2 := fun _ => 0
  bs := fun _ => 0
  c1 := fun _ => 0
  c2 := fun _ => 0
  cdelta := fun _ => 0

/-- A concrete `dd_bias` bundle with pairwise-distinct entries. -/
def db2W : DDBias := ⟨[0], [0], [3], [5], [7], [11], [13], 17⟩

/-- One-point calculator holding `db2W` in its `dd_bias` cache. -/
def ptcC2 : PTCalculator where
  with_NC := true
  with_IA := false
  P_window := none
  C_window := 3/4
  ks := [1]
  pt := fptW
  dd_bias := some db2W
  ia_ta := none
  ia_tt := none
  ia_mix := none

/-! ## Claims -/

/-- Claim C1 (code bug).  The claim says the tidal-bias arguments `bs1`,
`bs2` handed to the combination formulas are the tracer's `bs` function
evaluated at `z = 1/a - 1`; the source instead evaluates the tracer's
`b2` function (`bs1 = tracer1.b2(z_arr)`, lines 456/460/494/507).
(i) `get_pt_pk2d` is invariant under arbitrary replacement of both
tracers' `bs` functions — `bs` is never evaluated.  (ii) On a concrete
NC auto-correlation engineered so only the `0.25*(bs1*bs2)*Ps2s2` term
survives, a tracer with `b2 ≡ 5`, `bs ≡ 7` yields the packaged grid
`[[25/4]] = [[0.25*b2(0)²]]`, whereas the claim's reading would give
`0.25*bs(0)² = 49/4 ≠ 25/4`. -/
theorem C1_bs_arguments_come_from_b2 :
    (∀ (npLog : ℚ → ℚ) (cosmo : Cosmology) (t1 t2 : PTTracer) (ptc : PTCalculator)
       (sl un : Bool) (aa : Option (List ℚ)) (lok hik : ℤ) (bb : Bool)
       (f1 f2 : ℚ → ℚ),
       get_pt_pk2d npLog cosmo { t1 with bs := f1 } ptc (some { t2 with bs := f2 })
           sl un aa lok hik bb =
         get_pt_pk2d npLog cosmo t1 ptc (some t2) sl un aa lok hik bb)
    ∧ (get_pt_pk2d (fun _ => 0) cosmoC1 trC1 ptcC1 none false true (some [1]) 1 2 false).2.2
        = Except.ok ⟨[1], [0], [[25/4]], false⟩
    ∧ trC1.b2 0 = 5 ∧ trC1.bs 0 = 7
    ∧ (25 : ℚ)/4 = (1/4) * (trC1.b2 0 * trC1.b2 0)
    ∧ (1/4) * (trC1.bs 0 * trC1.bs 0) ≠ (25 : ℚ)/4 := by
  refine ⟨fun _ _ _ _ _ _ _ _ _ _ _ _ _ => rfl, ?_, rfl, rfl,
    by norm_num [trC1], by norm_num [trC1]⟩
  simp [get_pt_pk2d, update_pk, refreshBundles, Pd1d1_of, npT,
    PTCalculator.get_pgg, bcastKZ, rowMul, vMul, vAdd, vSmul, gAdd, gsubN,
    NScal.smul, cosmoC1, trC1, ptcC1, fptW, List.range_succ]
  norm_num

/-- Claim C2 (confirmed).  With a populated `dd_bias` cache and
well-shaped inputs, `get_pgg` returns exactly the `(N_k, N_z)` grid
stated by the claim: `(b11*b12)*Pd1d1 + 0.5(b11*b22+b12*b21)*Pd1d2 +
0.25(b21*b22)*(Pd2d2-2*s4) + 0.5(b11*bs2+b12*bs1)*Pd1s2 +
0.25(b21*bs2+b22*bs1)*(Pd2s2-(4/3)*s4) + 0.25(bs1*bs2)*(Ps2s2-(8/9)*s4)`
with the `PdXdY` the broadcasts of `g4` against `dd_bias[2..6]`, `s4`
the broadcast of `g4` against `dd_bias[7]` iff `sub_lowk`, and the exact
rational coefficients. -/
theorem C2_get_pgg_formula (c : PTCalculator) (db : DDBias) (Pd1d1 : Grid)
    (g4 b11 b21 bs1 b12 b22 bs2 : Vec) (sub_lowk : Bool) (nk nz : ℕ)
    (hdb : c.dd_bias = some db)
    (hs : PggShapes db Pd1d1 g4 b11 b21 bs1 b12 b22 bs2 nk nz) :
    c.get_pgg Pd1d1 g4 b11 b21 bs1 b12 b22 bs2 sub_lowk =
      some (pggSpec db Pd1d1 g4 b11 b21 bs1 b12 b22 bs2 sub_lowk nk nz) :=
  get_pgg_eq c db Pd1d1 g4 b11 b21 bs1 b12 b22 bs2 sub_lowk nk nz hdb hs

/-- Witness for C2 at a concrete one-point calculator and inputs. -/
theorem C2_get_pgg_formula_witness :
    (ptcC2.dd_bias = some db2W
     ∧ PggShapes db2W [[2]] [1] [1] [1] [1] [1] [1] [1] 1 1)
    ∧ ptcC2.get_pgg [[2]] [1] [1] [1] [1] [1] [1] [1] true =
        some (pggSpec db2W [[2]] [1] [1] [1] [1] [1] [1] [1] true 1 1) := by
  have hs : PggShapes db2W [[2]] [1] [1] [1] [1] [1] [1] [1] 1 1 := by
    refine ⟨⟨rfl, ?_⟩, rfl, rfl, rfl, rfl, rfl, rfl, rfl, rfl, rfl, rfl, rfl, rfl⟩
    intro k hk
    have : k = 0 := by simpa using hk
    subst this
    rfl
  exact ⟨⟨rfl, hs⟩,
    C2_get_pgg_formula ptcC2 db2W [[2]] [1] [1] [1] [1] [1] [1] [1] true 1 1 rfl hs⟩

/-- Claim C3 (confirmed).  `update_pk` with a spectrum whose shape differs
from the grid raises the shape-mismatch error, and — since the test
precedes every recomputation — the calculator object (with all four
cached bundles) is returned exactly as it was. -/
theorem C3_update_pk_atomic (c : PTCalculator) (pk : Vec)
    (h : pk.length ≠ c.ks.length) :
    update_pk c pk = (c, some "Input spectrum has wrong shape") := by
  unfold update_pk
  rw [if_pos h]

/-- Witness for C3: the empty spectrum against a one-point grid. -/
theorem C3_update_pk_atomic_witness :
    ([] : Vec).length ≠ ptcM.ks.length
    ∧ update_pk ptcM [] = (ptcM, some "Input spectrum has wrong shape") :=
  ⟨by decide, C3_update_pk_atomic ptcM [] (by decide)⟩

/-- Claim C10 (confirmed).  `update_pk` checks the grid shape
unconditionally — even with `with_NC = with_IA = false` a mismatched
spectrum raises the shape error with the object untouched — and a
correctly-shaped call with both flags off recomputes nothing: the
calculator (hence `dd_bias`, `ia_ta`, `ia_tt`, `ia_mix`) is returned
unchanged. -/
theorem C10_update_pk_flagless (c : PTCalculator) (pk : Vec)
    (hNC : c.with_NC = false) (hIA : c.with_IA = false) :
    (pk.length ≠ c.ks.length →
      update_pk c pk = (c, some "Input spectrum has wrong shape")) ∧
    (pk.length = c.ks.length → update_pk c pk = (c, none)) := by
  constructor
  · intro h
    unfold update_pk
    rw [if_pos h]
  · intro h
    unfold update_pk
    rw [if_neg (by omega)]
    unfold refreshBundles
    simp [hNC, hIA]

/-- Witness for C10 on the flagless one-point calculator. -/
theorem C10_update_pk_flagless_witness :
    ptcM.with_NC = false ∧ ptcM.with_IA = false ∧
    ((([5] : Vec).length ≠ ptcM.ks.length →
      update_pk ptcM [5] = (ptcM, some "Input spectrum has wrong shape")) ∧
     (([5] : Vec).length = ptcM.ks.length → update_pk ptcM [5] = (ptcM, none))) :=
  ⟨rfl, rfl, C10_update_pk_flagless ptcM [5] rfl rfl⟩

/-- Claim C4 (confirmed).  For two Matter-typed tracers the combination
step is the identity: the interpolant's grid is exactly the transposed
`Pd1d1` matter grid; the theorem holds for every tracer bias function
and every engine/cache state (the conclusion mentions neither), which is
the extensional content of "no bias function evaluated and no correlator
bundle read". -/
theorem C4_matter_matter_identity (npLog : ℚ → ℚ) (cosmo : Cosmology)
    (t1 t2 : PTTracer) (ptc : PTCalculator) (sub_lowk use_nonlin : Bool)
    (a_arr : List ℚ) (lok hik : ℤ) (bb : Bool)
    (h1 : t1.type = "M") (h2 : t2.type = "M") :
    get_pt_pk2d npLog cosmo t1 ptc (some t2) sub_lowk use_nonlin (some a_arr) lok hik bb =
      (refreshBundles ptc (ptc.ks.map (fun k => cosmo.linear_matter_power k 1)), [],
       Except.ok ⟨a_arr, ptc.ks.map npLog,
         npT (Pd1d1_of cosmo ptc.ks a_arr use_nonlin), false⟩) := by
  unfold get_pt_pk2d update_pk
  simp [h1, h2]

/-- Witness for C4 on concrete cosmology, tracer and calculator. -/
theorem C4_matter_matter_identity_witness :
    trM.type = "M" ∧
    get_pt_pk2d (fun x => x) cosmoM trM ptcM (some trM) false true (some [1]) 1 2 false =
      (refreshBundles ptcM (ptcM.ks.map (fun k => cosmoM.linear_matter_power k 1)), [],
       Except.ok ⟨[1], ptcM.ks.map (fun x => x),
         npT (Pd1d1_of cosmoM ptcM.ks [1] true), false⟩) :=
  ⟨rfl, C4_matter_matter_identity (fun x => x) cosmoM trM trM ptcM false true [1] 1 2
    false rfl rfl⟩

/-- Claim C5 (confirmed).  Swapping an NC tracer and an IA tracer between
the two argument slots of `get_pt_pk2d` produces identical results: both
orders dispatch to `get_pgi` with the `b`-arguments drawn from the NC
tracer and the `c`-arguments from the IA tracer. -/
theorem C5_nc_ia_order_swap (npLog : ℚ → ℚ) (cosmo : Cosmology)
    (tg ti : PTTracer) (ptc : PTCalculator) (sl un : Bool)
    (aa? : Option (List ℚ)) (lok hik : ℤ) (bb : Bool)
    (hg : tg.type = "NC") (hi : ti.type = "IA") :
    get_pt_pk2d npLog cosmo tg ptc (some ti) sl un aa? lok hik bb =
    get_pt_pk2d npLog cosmo ti ptc (some tg) sl un aa? lok hik bb := by
  unfold get_pt_pk2d
  simp [hg, hi]

/-- A number-counts tracer with distinct bias values, for the C5 witness. -/
def tgW : PTTracer where
  type := "NC"
  b1 := fun _ => 2
  b2 := fun _ => 3
  bs := fun _ => 4
  c1 := fun _ => 0
  c2 := fun _ => 0
  cdelta := fun _ => 0

/-- An intrinsic-alignment tracer with distinct bias values. -/
def tiW : PTTracer where
  type := "IA"
  b1 := fun _ => 0
  b2 := fun _ => 0
  bs := fun _ => 0
  c1 := fun _ => 5
  c2 := fun _ => 6
  cdelta := fun _ => 7

/-- One-point calculator with both features enabled. -/
def ptcBoth : PTCalculator where
  with_NC := true
  with_IA := true
  P_window := none
  C_window := 3/4
  ks := [1]
  pt := fptW
  dd_bias := none
  ia_ta := none
  ia_tt := none
  ia_mix := none

/-- Witness for C5 on concrete tracers. -/
theorem C5_nc_ia_order_swap_witness :
    tgW.type = "NC" ∧ tiW.type = "IA" ∧
    get_pt_pk2d (fun x => x) cosmoM tgW ptcBoth (some tiW) false true (some [1]) 1 2 false =
    get_pt_pk2d (fun x => x) cosmoM tiW ptcBoth (some tgW) false true (some [1]) 1 2 false :=
  ⟨rfl, rfl, C5_nc_ia_order_swap (fun x => x) cosmoM tgW tiW ptcBoth false true
    (some [1]) 1 2 false rfl rfl⟩

/-- Claim C6 (confirmed).  (i) `get_pgg` with `sub_lowk = true` and
`false` differ only in the `s4`-proportional low-k corrections: the
cellwise difference is `-(g4*sig4)` times
`(1/2)b21*b22 + (1/3)(b21*bs2+b22*bs1) + (2/9)bs1*bs2`.
(ii) With all second-order and tidal biases zero the result collapses to
`(b11*b12)*Pd1d1` for either flag value.  (iii) Concretely, `b1 = 2` for
both tracers with `g4 = 1` and `Pd1d1 = 1` yields the constant grid `4`
for either flag value. -/
theorem C6_pgg_lowk_and_collapse (c : PTCalculator) (db : DDBias) (Pd1d1 : Grid)
    (g4 b11 b21 bs1 b12 b22 bs2 : Vec) (nk nz : ℕ)
    (hdb : c.dd_bias = some db)
    (hs : PggShapes db Pd1d1 g4 b11 b21 bs1 b12 b22 bs2 nk nz) :
    (∃ Pt Pf : Grid,
      c.get_pgg Pd1d1 g4 b11 b21 bs1 b12 b22 bs2 true = some Pt ∧
      c.get_pgg Pd1d1 g4 b11 b21 bs1 b12 b22 bs2 false = some Pf ∧
      ∀ k z, k < nk → z < nz →
        gcell Pt k z - gcell Pf k z =
          -(g4.getD z 0 * db.sig4) *
            ((1/2) * (b21.getD z 0 * b22.getD z 0)
             + (1/3) * (b21.getD z 0 * bs2.getD z 0 + b22.getD z 0 * bs1.getD z 0)
             + (2/9) * (bs1.getD z 0 * bs2.getD z 0)))
    ∧ (∀ slk : Bool,
        c.get_pgg Pd1d1 g4 b11 (List.replicate nz 0) (List.replicate nz 0)
            b12 (List.replicate nz 0) (List.replicate nz 0) slk =
          some (GridOfFn nk nz (fun k z =>
            b11.getD z 0 * b12.getD z 0 * gcell Pd1d1 k z)))
    ∧ (∀ slk : Bool,
        ptcC2.get_pgg [[1]] [1] [2] [0] [0] [2] [0] [0] slk = some [[4]]) := by
  obtain ⟨hP, hgl, h11, h21, hs1l, h12, h22, hs2l, hd2, hd3, hd4, hd5, hd6⟩ := hs
  refine ⟨⟨pggSpec db Pd1d1 g4 b11 b21 bs1 b12 b22 bs2 true nk nz,
          pggSpec db Pd1d1 g4 b11 b21 bs1 b12 b22 bs2 false nk nz,
          get_pgg_eq c db Pd1d1 g4 b11 b21 bs1 b12 b22 bs2 true nk nz hdb
            ⟨hP, hgl, h11, h21, hs1l, h12, h22, hs2l, hd2, hd3, hd4, hd5, hd6⟩,
          get_pgg_eq c db Pd1d1 g4 b11 b21 bs1 b12 b22 bs2 false nk nz hdb
            ⟨hP, hgl, h11, h21, hs1l, h12, h22, hs2l, hd2, hd3, hd4, hd5, hd6⟩, ?_⟩,
         ?_, ?_⟩
  · intro k z hk hz
    unfold pggSpec
    rw [cell_GridOfFn _ hk hz, cell_GridOfFn _ hk hz]
    simp only [eq_self_iff_true, if_true, Bool.false_eq_true, if_false]
    ring
  · intro slk
    have hs' : PggShapes db Pd1d1 g4 b11 (List.replicate nz 0) (List.replicate nz 0)
        b12 (List.replicate nz 0) (List.replicate nz 0) nk nz :=
      ⟨hP, hgl, h11, by simp, by simp, h12, by simp, by simp, hd2, hd3, hd4, hd5, hd6⟩
    rw [get_pgg_eq c db Pd1d1 g4 b11 (List.replicate nz 0) (List.replicate nz 0)
        b12 (List.replicate nz 0) (List.replicate nz 0) slk nk nz hdb hs']
    refine congrArg some ?_
    refine Rect_ext (Rect_GridOfFn nk nz _) (Rect_GridOfFn nk nz _) ?_
    intro k z hk hz
    unfold pggSpec
    rw [cell_GridOfFn _ hk hz, cell_GridOfFn _ hk hz,
        getD_replicate_in (0 : ℚ) hz]
    ring
  · intro slk
    have hs0 : PggShapes db2W [[1]] [1] [2] [0] [0] [2] [0] [0] 1 1 := by
      refine ⟨⟨rfl, ?_⟩, rfl, rfl, rfl, rfl, rfl, rfl, rfl, rfl, rfl, rfl, rfl, rfl⟩
      intro k hk
      have : k = 0 := by simpa using hk
      subst this
      rfl
    rw [get_pgg_eq ptcC2 db2W [[1]] [1] [2] [0] [0] [2] [0] [0] slk 1 1 rfl hs0]
    refine congrArg some ?_
    unfold pggSpec GridOfFn
    cases slk <;> simp [gcell, db2W, List.range_succ] <;> norm_num

/-- Witness for C6 on the concrete one-point calculator `ptcC2`. -/
theorem C6_pgg_lowk_and_collapse_witness :
    (ptcC2.dd_bias = some db2W
     ∧ PggShapes db2W [[2]] [1] [9] [10] [11] [12] [13] [14] 1 1)
    ∧ ((∃ Pt Pf : Grid,
        ptcC2.get_pgg [[2]] [1] [9] [10] [11] [12] [13] [14] true = some Pt ∧
        ptcC2.get_pgg [[2]] [1] [9] [10] [11] [12] [13] [14] false = some Pf ∧
        ∀ k z, k < 1 → z < 1 →
          gcell Pt k z - gcell Pf k z =
            -(([( 1 : ℚ)]).getD z 0 * db2W.sig4) *
              ((1/2) * (([(10 : ℚ)]).getD z 0 * ([(13 : ℚ)]).getD z 0)
               + (1/3) * (([(10 : ℚ)]).getD z 0 * ([(14 : ℚ)]).getD z 0
                          + ([(13 : ℚ)]).getD z 0 * ([(11 : ℚ)]).getD z 0)
               + (2/9) * (([(11 : ℚ)]).getD z 0 * ([(14 : ℚ)]).getD z 0)))
       ∧ (∀ slk : Bool,
          ptcC2.get_pgg [[2]] [1] [9] (List.replicate 1 0) (List.replicate 1 0)
              [12] (List.replicate 1 0) (List.replicate 1 0) slk =
            some (GridOfFn 1 1 (fun k z =>
              ([(9 : ℚ)]).getD z 0 * ([(12 : ℚ)]).getD z 0 * gcell [[2]] k z)))
       ∧ (∀ slk : Bool,
          ptcC2.get_pgg [[1]] [1] [2] [0] [0] [2] [0] [0] slk = some [[4]])) := by
  have hs : PggShapes db2W [[2]] [1] [9] [10] [11] [12] [13] [14] 1 1 := by
    refine ⟨⟨rfl, ?_⟩, rfl, rfl, rfl, rfl, rfl, rfl, rfl, rfl, rfl, rfl, rfl, rfl⟩
    intro k hk
    have : k = 0 := by simpa using hk
    subst this
    rfl
  exact ⟨⟨rfl, hs⟩,
    C6_pgg_lowk_and_collapse ptcC2 db2W [[2]] [1] [9] [10] [11] [12] [13] [14] 1 1 rfl hs⟩

/-- Claim C7 (confirmed).  If either tracer is NC-typed while the
calculator lacks `with_NC`, or IA-typed while it lacks `with_IA`,
`get_pt_pk2d` returns the corresponding value error with the calculator
returned untouched (cache not refreshed); the theorem holds uniformly in
the cosmology, the engine behind the calculator and the tracers' bias
functions, which is the extensional content of "no power spectrum,
growth factor, or bias function is evaluated". -/
theorem C7_flag_validation (npLog : ℚ → ℚ) (cosmo : Cosmology) (t1 t2 : PTTracer)
    (ptc : PTCalculator) (sl un : Bool) (aa? : Option (List ℚ)) (lok hik : ℤ)
    (bb : Bool)
    (h : ((t1.type = "NC" ∨ t2.type = "NC") ∧ ptc.with_NC = false) ∨
         ((t1.type = "IA" ∨ t2.type = "IA") ∧ ptc.with_IA = false)) :
    get_pt_pk2d npLog cosmo t1 ptc (some t2) sl un aa? lok hik bb =
      (ptc, [], .error "Need number counts bias, but workspace didn't compute it") ∨
    get_pt_pk2d npLog cosmo t1 ptc (some t2) sl un aa? lok hik bb =
      (ptc, [], .error "Need intrinsic alignment bias, but workspace didn't compute it") := by
  simp only [get_pt_pk2d, Option.getD_some]
  by_cases hNC : (t1.type = "NC" ∨ t2.type = "NC") ∧ ¬ptc.with_NC
  · rw [if_pos hNC]
    exact Or.inl rfl
  · rw [if_neg hNC]
    have hIA : (t1.type = "IA" ∨ t2.type = "IA") ∧ ¬ptc.with_IA := by
      rcases h with ⟨hnc, hflag⟩ | hia
      · exact absurd ⟨hnc, by simp [hflag]⟩ hNC
      · exact ⟨hia.1, by simp [hia.2]⟩
    rw [if_pos hIA]
    exact Or.inr rfl

/-- Witness for C7: an IA tracer against a calculator without IA support. -/
theorem C7_flag_validation_witness :
    (((tiW.type = "NC" ∨ tiW.type = "NC") ∧ ptcC1.with_NC = false) ∨
     ((tiW.type = "IA" ∨ tiW.type = "IA") ∧ ptcC1.with_IA = false)) ∧
    (get_pt_pk2d (fun x => x) cosmoM tiW ptcC1 (some tiW) false true (some [1]) 1 2 false =
      (ptcC1, [], .error "Need number counts bias, but workspace didn't compute it") ∨
     get_pt_pk2d (fun x => x) cosmoM tiW ptcC1 (some tiW) false true (some [1]) 1 2 false =
      (ptcC1, [], .error "Need intrinsic alignment bias, but workspace didn't compute it")) :=
  ⟨Or.inr ⟨Or.inl rfl, rfl⟩,
   C7_flag_validation (fun x => x) cosmoM tiW tiW ptcC1 false true (some [1]) 1 2 false
     (Or.inr ⟨Or.inl rfl, rfl⟩)⟩

/-- Cosmology whose nonlinear power separates k and a samples. -/
def cosmo8 : Cosmology where
  linear_matter_power := fun _ _ => 1
  nonlin_matter_power := fun k a => k * a
  growth_factor := fun _ => 1
  pk_spline_a := [1]

/-- Three-point flagless calculator for the C8 evaluation. -/
def ptc8 : PTCalculator where
  with_NC := false
  with_IA := false
  P_window := none
  C_window := 3/4
  ks := [1, 2, 4]
  pt := fptW
  dd_bias := none
  ia_ta := none
  ia_tt := none
  ia_mix := none

/-- Claim C8 (code bug).  The packaging parts of the claim hold: the grid
handed to the interpolant is the `(N_a, N_k)` transpose of the internal
`(N_k, N_a)` grid, the k-axis is `log(ks)`, and storage is linear
(`is_logp = false`).  But the claim's "with the caller's requested low-k
and high-k extrapolation orders" is contradicted: the source never
forwards `extrap_order_lok`/`extrap_order_hik` to the `Pk2D`
constructor, so the output is identical for every requested pair of
orders (first conjunct) — the container keeps its own defaults, against
the function's own docstring.  The remaining conjuncts evaluate a
3-wavenumber, 2-scale-factor Matter call: the packaged grid has shape
`(N_a, N_k) = (2, 3)`. -/
theorem C8_extrap_orders_dropped :
    (∀ (npLog : ℚ → ℚ) (cosmo : Cosmology) (t1 : PTTracer) (ptc : PTCalculator)
       (t2 : Option PTTracer) (sl un : Bool) (aa : Option (List ℚ))
       (lok hik lok' hik' : ℤ) (bb : Bool),
       get_pt_pk2d npLog cosmo t1 ptc t2 sl un aa lok hik bb =
         get_pt_pk2d npLog cosmo t1 ptc t2 sl un aa lok' hik' bb)
    ∧ (get_pt_pk2d (fun x => x) cosmo8 trM ptc8 none false true
        (some [1, 1/2]) 0 0 false).2.2 =
        Except.ok ⟨[1, 1/2], [1, 2, 4], [[1, 2, 4], [1/2, 1, 2]], false⟩
    ∧ ([[(1 : ℚ), 2, 4], [1/2, 1, 2]] : Grid).length = 2
    ∧ (∀ r ∈ ([[(1 : ℚ), 2, 4], [1/2, 1, 2]] : Grid), r.length = 3)  := by
  refine ⟨fun _ _ _ _ _ _ _ _ _ _ _ _ _ => rfl, ?_, rfl, by simp⟩
  simp [get_pt_pk2d, update_pk, refreshBundles, Pd1d1_of, npT,
    cosmo8, trM, ptc8, fptW, List.range_succ]
  norm_num

/-- Claim C9 (confirmed).  `get_pgi` returns `b1` (row-broadcast) times
the IA×Matter expression `c1*Pd1d1 + (g4*cd)⊗(a00e+c00e) +
(g4*c2)⊗(a0e2+b0e2)`; it never reads its `b2`/`bs` parameters (second
conjunct: the result is unchanged under arbitrary replacement of both);
and the warning list it emits is nonempty on every invocation (the
`warnings.warn` call is unconditional). -/
theorem C9_pgi_linear_bias (c : PTCalculator) (ta : IATA) (mix : IAMix)
    (Pd1d1 : Grid) (g4 b1 b2 bs b2' bs' c1 c2 cd : Vec)
    (hta : c.ia_ta = some ta) (hmix : c.ia_mix = some mix) :
    c.get_pgi Pd1d1 g4 b1 b2 bs c1 c2 cd =
      ([pgi_warning],
       some (rowMul b1 (gAdd (rowMul c1 Pd1d1)
            (gAdd (bcastKZ (vMul g4 cd) (vAdd ta.a00e ta.c00e))
                  (bcastKZ (vMul g4 c2) (vAdd mix.a0e2 mix.b0e2))))))
    ∧ c.get_pgi Pd1d1 g4 b1 b2 bs c1 c2 cd = c.get_pgi Pd1d1 g4 b1 b2' bs' c1 c2 cd
    ∧ (c.get_pgi Pd1d1 g4 b1 b2 bs c1 c2 cd).1 ≠ [] := by
  refine ⟨?_, rfl, ?_⟩
  · simp [PTCalculator.get_pgi, hta, hmix]
  · simp [PTCalculator.get_pgi]

/-- A concrete tidal-alignment bundle. -/
def taW : IATA := ⟨[1], [2], [3], [4]⟩

/-- A concrete mixed bundle. -/
def mixW : IAMix := ⟨[5], [6], [7], [8]⟩

/-- One-point calculator with populated IA caches. -/
def ptcIA : PTCalculator where
  with_NC := false
  with_IA := true
  P_window := none
  C_window := 3/4
  ks := [1]
  pt := fptW
  dd_bias := none
  ia_ta := some taW
  ia_tt := none
  ia_mix := some mixW

/-- Witness for C9 on the concrete IA calculator. -/
theorem C9_pgi_linear_bias_witness :
    (ptcIA.ia_ta = some taW ∧ ptcIA.ia_mix = some mixW) ∧
    (ptcIA.get_pgi [[1]] [1] [2] [3] [4] [5] [6] [7] =
      ([pgi_warning],
       some (rowMul [2] (gAdd (rowMul [5] [[1]])
            (gAdd (bcastKZ (vMul [1] [7]) (vAdd taW.a00e taW.c00e))
                  (bcastKZ (vMul [1] [6]) (vAdd mixW.a0e2 mixW.b0e2))))))
     ∧ ptcIA.get_pgi [[1]] [1] [2] [3] [4] [5] [6] [7] =
        ptcIA.get_pgi [[1]] [1] [2] [30] [40] [5] [6] [7]
     ∧ (ptcIA.get_pgi [[1]] [1] [2] [3] [4] [5] [6] [7]).1 ≠ []) :=
  ⟨⟨rfl, rfl⟩,
   C9_pgi_linear_bias ptcIA taW mixW [[1]] [1] [2] [3] [4] [30] [40] [5] [6] [7] rfl rfl⟩

end CCL
